import Mathlib

/-!
Verification development for the YouTube audio transcriber service.

The Python sources are shallowly embedded: Python strings are lists of
characters (`PyStr`), the filesystem is an explicit finite map from paths
to file sizes plus a set of directories, external collaborators (the two
speech backends, the generative summarizers, `os.remove`) are parameters
returning `Except`/`Option` values, and every function of the repository
that the claims touch is translated into a total Lean function.
-/

/-- Python strings are modelled as lists of characters, so that `len`,
slicing and splitting have their Python semantics definitionally. -/
abbrev PyStr := List Char

/-- Converts a Lean string literal to the `PyStr` model. -/
def S (s : String) : PyStr := s.data

/-- Character class used by Python `str.strip()` with no argument. -/
def isSp (c : Char) : Bool := c.isWhitespace

/-- Python `str.lstrip()`. -/
def pyLStrip (s : PyStr) : PyStr := s.dropWhile isSp

/-- Python `str.rstrip()`: drop the trailing run of whitespace. -/
def pyRStrip : PyStr → PyStr
  | [] => []
  | c :: rest =>
    let r := pyRStrip rest
    if r = [] ∧ isSp c then [] else c :: r

/-- Python `str.strip()`: drop leading and trailing whitespace. -/
def pyStrip (s : PyStr) : PyStr := pyRStrip (pyLStrip s)

/-- Python `str.split(sep)` for a one-character separator: split at every
occurrence of the separator, keeping empty fragments. -/
def splitOnChar (sep : Char) : PyStr → List PyStr
  | [] => [[]]
  | c :: rest =>
    if c = sep then [] :: splitOnChar sep rest
    else
      match splitOnChar sep rest with
      | [] => [[c]]
      | h :: t => (c :: h) :: t

/-- Python `str.split("\n\n")`: split at every non-overlapping occurrence
of a double newline, scanning left to right. -/
def splitNN : PyStr → List PyStr
  | [] => [[]]
  | '\n' :: '\n' :: rest => [] :: splitNN rest
  | c :: rest =>
    match splitNN rest with
    | [] => [[c]]
    | h :: t => (c :: h) :: t

/-- Python `sep.join(xs)`. -/
def pyJoin (sep : PyStr) : List PyStr → PyStr
  | [] => []
  | [x] => x
  | x :: y :: rest => x ++ sep ++ pyJoin sep (y :: rest)

/-- Python `str.split()` with no argument: split on whitespace runs,
discarding empty fragments. -/
def pyWords (s : PyStr) : List PyStr :=
  (List.splitOnP isSp s).filter (· ≠ [])

/-- Python `str.lower()` (the repository only lowercases ASCII filename
extensions and Korean text, on which `Char.toLower` agrees with Python). -/
def pyLower (s : PyStr) : PyStr := s.map Char.toLower

/-- Python `max(xs, key=len, default=d)`: first element of maximal length,
or the default when the list is empty. -/
def pyMaxLen (d : PyStr) : List PyStr → PyStr
  | [] => d
  | h :: t => t.foldl (fun acc x => if x.length > acc.length then x else acc) h

/-- Python `sorted(xs, key=key, reverse=True)` is a stable descending
sort; `insertDescBy` inserts an element that occurred before every element
of the already sorted tail, so equal keys keep the original order. -/
def insertDescBy (key : α → Nat) (x : α) : List α → List α
  | [] => [x]
  | y :: ys => if key y > key x then y :: insertDescBy key x ys else x :: y :: ys

/-- Python `sorted(xs, key=key, reverse=True)` (stable). -/
def sortDescBy (key : α → Nat) : List α → List α
  | [] => []
  | x :: xs => insertDescBy key x (sortDescBy key xs)

/-- Python `str(n)` for a natural number. -/
def natStr (n : Nat) : PyStr := (toString n).data

/-- Keeps the first occurrence of each element, preserving order — the
iteration order of a Python dict keyed by first insertion. -/
def firstOcc : List PyStr → List PyStr
  | l => l.foldl (fun acc x => if x ∈ acc then acc else acc ++ [x]) []

/-- Number of distinct words of `p` that also occur in `q`: the Python
expression `len(set(p.split()) & set(q.split()))`. -/
def wordOverlap (p q : PyStr) : Nat :=
  ((firstOcc (pyWords p)).filter (· ∈ pyWords q)).length

/-! ## Filesystem model

The filesystem is a finite list of regular files (absolute path and size
in bytes) together with the list of existing directories. -/

/-- Filesystem state: regular files with their byte sizes, and directories. -/
structure FS where
  files : List (PyStr × Nat)
  dirs : List PyStr
deriving DecidableEq

/-- Python `os.path.exists` on a regular-file path. -/
def FS.pathExists (fs : FS) (p : PyStr) : Bool := fs.files.any (fun f => f.1 = p)

/-- Python `os.path.isdir` / existence of a directory. -/
def FS.dirExists (fs : FS) (d : PyStr) : Bool := fs.dirs.any (fun x => x = d)

/-- Python `os.path.getsize` (0 when the path is absent; the orchestrating
code only reads sizes of existing paths). -/
def FS.size (fs : FS) (p : PyStr) : Nat :=
  ((fs.files.find? (fun f => f.1 = p)).map Prod.snd).getD 0

/-- Python `os.remove`: the file disappears from the filesystem. -/
def FS.removeFile (fs : FS) (p : PyStr) : FS :=
  { fs with files := fs.files.filter (fun f => ¬ f.1 = p) }

/-- Python `posixpath.dirname`: everything before the final slash, with
trailing slashes of the head stripped unless the head is all slashes. -/
def dirname (p : PyStr) : PyStr :=
  let head := (p.reverse.dropWhile (· ≠ '/')).reverse
  if head ≠ [] ∧ ¬ head.all (· = '/') then (head.reverse.dropWhile (· = '/')).reverse
  else head

/-- Python `os.path.basename`: everything after the final slash. -/
def basename (p : PyStr) : PyStr := (p.reverse.takeWhile (· ≠ '/')).reverse

/-- Python `os.listdir` in this model: the names of the regular files
whose directory is `d`. -/
def FS.listdir (fs : FS) (d : PyStr) : List PyStr :=
  (fs.files.filter (fun f => dirname f.1 = d)).map (fun f => basename f.1)

/-- Test from `speech_transcriber.transcribe`:
`f.lower().endswith(('.mp3', '.wav', '.m4a', '.ogg'))`. -/
def isAudioName (f : PyStr) : Bool :=
  (S ".mp3").isSuffixOf (pyLower f) ∨ (S ".wav").isSuffixOf (pyLower f) ∨
  (S ".m4a").isSuffixOf (pyLower f) ∨ (S ".ogg").isSuffixOf (pyLower f)

/-! ## `speech_transcriber.py`

The two recognition backends are external collaborators (the `whisper`
library and the `speech_recognition` library); they are modelled as
parameters that either return a payload or fault.  Whisper segments are
an opaque payload type `σ` passed through unchanged. -/

/-- Payload returned by `self.whisper_model.transcribe` when it does not
raise: the fields read by `transcribe_with_whisper`. -/
structure WhisperOut (σ : Type) where
  text : PyStr
  language : PyStr
  segments : σ
deriving DecidableEq

/-- Outcome of the body of `transcribe_with_google`'s outer `try`: the
Google call either yields text, or raises one of the exception classes
distinguished by the handlers (`sr.UnknownValueError`, `sr.RequestError`,
any other exception).  The WAV conversion and the Korean-then-English
retry happen inside the collaborator and are absorbed into this outcome. -/
inductive GoogleOutcome where
  | ok (text : PyStr)
  | unknownValue
  | requestErr (e : PyStr)
  | exc (e : PyStr)
deriving DecidableEq

/-- A whisper backend: may fault with a message (any raised exception). -/
def WhisperBackend (σ : Type) := PyStr → Except PyStr (WhisperOut σ)

/-- A Google backend: maps the audio path to a `GoogleOutcome`. -/
def GoogleBackend := PyStr → GoogleOutcome

/-- One backend's result dictionary: optional keys model the keys the
Python code actually puts in each dictionary. -/
structure SubResult (σ : Type) where
  text : PyStr
  language : Option PyStr := none
  segments : Option σ := none
  error : Option PyStr := none
  success : Bool
  method : PyStr
deriving DecidableEq

/-- Result dictionary of `SpeechTranscriber.transcribe`: either a
single-backend shape, a precondition failure (no `method` key), or the
dual shape with `whisper`/`google` sub-dictionaries. -/
structure TResult (σ : Type) where
  text : Option PyStr := none
  error : Option PyStr := none
  success : Bool
  method : Option PyStr := none
  whisper : Option (SubResult σ) := none
  google : Option (SubResult σ) := none
deriving DecidableEq

/-- Embedding of `SpeechTranscriber.transcribe_with_whisper`: load the
model and run it inside `try`; any raise is captured as a failure
dictionary. -/
def transcribe_with_whisper (wb : WhisperBackend σ) (audio_path : PyStr) : SubResult σ :=
  match wb audio_path with
  | .ok r =>
    { text := pyStrip r.text, language := some r.language, segments := some r.segments,
      success := true, method := S "whisper" }
  | .error e =>
    { text := [], error := some e, success := false, method := S "whisper" }

/-- Embedding of `SpeechTranscriber.transcribe_with_google`: the four
exception arms of the Python function, keyed by the collaborator outcome.
The google dictionary never carries a `segments` key, so the result is
polymorphic in the segment type. -/
def transcribe_with_google (gb : GoogleBackend) (audio_path : PyStr) : SubResult σ :=
  match gb audio_path with
  | .ok t =>
    { text := t, language := some (S "ko-KR"), success := true, method := S "google" }
  | .unknownValue =>
    { text := [], error := some (S "음성을 인식할 수 없습니다"), success := false,
      method := S "google" }
  | .requestErr e =>
    { text := [], error := some (S "Google API 오류: " ++ e), success := false,
      method := S "google" }
  | .exc e =>
    { text := [], error := some e, success := false, method := S "google" }

/-- Lifts a single-backend result dictionary to the outer result type. -/
def SubResult.toTResult (r : SubResult σ) : TResult σ :=
  { text := some r.text, error := r.error, success := r.success, method := some r.method }

/-- Diagnostic message of the missing-file branch of
`SpeechTranscriber.transcribe`: when the directory exists, list up to
five audio files found there (plus a count of the remainder); otherwise
report that the directory is missing too. -/
def missingFileMsg (fs : FS) (audio_path : PyStr) : PyStr :=
  let directory := dirname audio_path
  if fs.dirExists directory then
    let files := (fs.listdir directory).filter isAudioName
    let file_list := pyJoin (S ", ") (files.take 5)
    let more_files := if files.length > 5 then
        S " (그 외 " ++ natStr (files.length - 5) ++ S "개 더)" else []
    S "파일을 찾을 수 없습니다: " ++ audio_path ++ S "\n" ++
      S "디렉토리 " ++ directory ++ S "의 오디오 파일들: " ++ file_list ++ more_files
  else
    S "파일을 찾을 수 없습니다: " ++ audio_path ++
      S "\n디렉토리도 존재하지 않습니다: " ++ directory

/-- Embedding of `SpeechTranscriber.transcribe`: precondition checks on
the path (empty path, missing file with sibling-listing diagnostic, empty
file), then dispatch on `method`.  The Python `except OSError` arm around
`os.path.getsize` is unreachable in this model because sizes of existing
files are always available. -/
def SpeechTranscriber.transcribe (fs : FS) (wb : WhisperBackend σ) (gb : GoogleBackend)
    (audio_path : PyStr) (method : PyStr) : TResult σ :=
  if audio_path = [] then
    { text := some [], error := some (S "오디오 파일 경로가 제공되지 않았습니다."), success := false }
  else if ¬ fs.pathExists audio_path then
    { text := some [], error := some (missingFileMsg fs audio_path), success := false }
  else if fs.size audio_path = 0 then
    { text := some [],
      error := some (S "오디오 파일이 비어있습니다: " ++ audio_path),
      success := false }
  else if method = S "whisper" then
    (transcribe_with_whisper wb audio_path).toTResult
  else if method = S "google" then
    (transcribe_with_google gb audio_path).toTResult
  else if method = S "both" then
    { whisper := some (transcribe_with_whisper wb audio_path),
      google := some (transcribe_with_google gb audio_path),
      success := true, method := some (S "both") }
  else
    { text := some [], error := some (S "지원하지 않는 방법: " ++ method), success := false }

/-! ## `app.py` — summarization endpoints

External collaborators: the Gemini strategies (which catch every internal
fault and return `None`, so they are modelled as `Option` payloads) and
the local T5 `summarizer` pipeline (modelled as a function from the
`max_length`/`min_length` parameters and the input text to either a
summary text or a fault).  `summarizer` is `none` exactly when the model
failed to load at startup. -/

/-- Outcome of a FastAPI handler: JSON content, or an `HTTPException`. -/
inductive Resp (α : Type) where
  | ok (content : α)
  | httpError (code : Nat) (detail : PyStr)
deriving DecidableEq

/-- The loaded T5 pipeline: `summarizer(text, max_length=a, min_length=b, ...)[0]['summary_text']`. -/
def T5Model := Nat → Nat → PyStr → Except PyStr PyStr

/-- Shape returned by the curator mode. -/
structure CuratorOut where
  title : PyStr
  one_line_summary : PyStr
  key_points : List PyStr
deriving DecidableEq

/-- Shape of one timeline section. -/
structure TimelineSection where
  timestamp : PyStr
  subtitle : PyStr
  summary : PyStr
  keywords : List PyStr
  oneline_summary : PyStr
deriving DecidableEq

/-- Configuration and collaborators of the summarization endpoints. -/
structure SummEnv where
  use_gemini : Bool
  has_key : Bool
  gemini_key_points : Option (List PyStr)
  gemini_curator : Option CuratorOut
  gemini_timeline : Option (List TimelineSection)
  summarizer : Option T5Model

/-- Segmentation shared by both key-summary tiers: split on blank lines;
when that yields a single segment, split on single newlines instead and
keep only stripped fragments longer than 10 characters. -/
def keyParagraphs (text : PyStr) : List PyStr :=
  let paragraphs := splitNN text
  if paragraphs.length = 1 then
    ((splitOnChar '\n' text).map pyStrip).filter (fun p => p ≠ [] ∧ p.length > 10)
  else (paragraphs.map pyStrip).filter (· ≠ [])

/-- Sentence list used by the rule-based key-summary tier:
`[s.strip() for s in para.split('.') if s.strip()]`. -/
def keySentences (para : PyStr) : List PyStr :=
  ((splitOnChar '.' para).map pyStrip).filter (· ≠ [])

/-- Rule-based summary of one paragraph (the `not summarizer` branch of
`summarize_key_points`): short paragraphs verbatim, otherwise the first
sentence joined with the longest remaining sentence. -/
def ruleParaSummary (para : PyStr) : PyStr :=
  if (pyStrip para).length < 30 then pyStrip para
  else
    let sentences := keySentences para
    if sentences.length ≤ 2 then pyStrip para
    else
      let first_sentence := sentences.headD [] ++ S "."
      let rest := sentences.drop 1
      let longest_sentence := pyMaxLen [] rest ++ (if rest ≠ [] then S "." else [])
      first_sentence ++
        (if longest_sentence ≠ [] ∧ longest_sentence ≠ S "." then S " " ++ longest_sentence else [])

/-- Rule-based key-summary tier: one summary per paragraph, keeping only
stripped summaries longer than 5 characters.  The Python `try`/`except`
around this tier is dead code: the body is pure. -/
def ruleKeySummary (text : PyStr) : List PyStr :=
  (keyParagraphs text).filterMap (fun para =>
    let summary_text := ruleParaSummary para
    if summary_text ≠ [] ∧ (pyStrip summary_text).length > 5 then some (pyStrip summary_text)
    else none)

/-- T5 summary of one paragraph: paragraphs shorter than 50 characters
verbatim, otherwise the model applied to the first 800 characters. -/
def t5ParaSummary (f : T5Model) (para : PyStr) : Except PyStr PyStr :=
  if para.length < 50 then .ok para
  else f 120 25 (para.take 800)

/-- T5 loop of `summarize_key_points`: a fault in any model call aborts
the whole request (it is re-raised as an HTTP error by the caller). -/
def t5KeyLoop (f : T5Model) : List PyStr → Except PyStr (List PyStr)
  | [] => .ok []
  | para :: rest => do
    let summary_text ← t5ParaSummary f para
    let tail ← t5KeyLoop f rest
    if summary_text ≠ [] ∧ (pyStrip summary_text).length > 5 then
      .ok (pyStrip summary_text :: tail)
    else .ok tail

/-- T5-backed key-summary tier. -/
def t5KeySummary (f : T5Model) (text : PyStr) : Except PyStr (List PyStr) :=
  t5KeyLoop f (keyParagraphs text)

/-- Embedding of the `summarize_key_points` handler: Gemini tier when
configured (its result is used only when truthy, i.e. a non-empty list),
then the T5 tier when the model is loaded (a fault becomes an HTTP 500),
otherwise the rule-based tier. -/
def summarize_key_points (env : SummEnv) (text : PyStr) : Resp (List PyStr) :=
  let backup : Resp (List PyStr) :=
    match env.summarizer with
    | none => .ok (ruleKeySummary text)
    | some f =>
      match t5KeySummary f text with
      | .ok l => .ok l
      | .error e => .httpError 500 (S "요약 처리 중 오류 발생: " ++ e)
  if env.use_gemini ∧ env.has_key then
    match env.gemini_key_points with
    | some result => if result ≠ [] then .ok result else backup
    | none => backup
  else backup

/-- Sentence list of the rule-based curator tier: period-delimited,
stripped, longer than 10 characters. -/
def curatorSentences (text : PyStr) : List PyStr :=
  ((splitOnChar '.' (pyStrip text)).map pyStrip).filter (fun s => s ≠ [] ∧ s.length > 10)

/-- Rule-based curator tier (the `not summarizer` branch of
`summarize_curator`).  Its `try`/`except` is dead code: the body is pure. -/
def ruleCurator (text : PyStr) : CuratorOut :=
  let sentences := curatorSentences text
  let title :=
    match sentences with
    | [] => S "YouTube 영상 요약"
    | tc :: _ =>
      if tc.length > 100 then
        let words := (pyWords tc).take 10
        pyJoin (S " ") words ++ (if words.length = 10 then S "..." else [])
      else tc
  let one_line_summary :=
    if sentences.length ≥ 2 then
      pyJoin (S ". ") ((sortDescBy List.length (sentences.take 5)).take 2) ++ S "."
    else
      match sentences with
      | [] => S "영상 내용 요약"
      | s :: _ => s
  let key_points0 :=
    if sentences.length ≥ 3 then
      ((sortDescBy List.length sentences).take 3).map
        (fun p => p ++ (if ¬ (S ".").isSuffixOf p then S "." else []))
    else
      (sentences.take 3).map (fun s => s ++ (if ¬ (S ".").isSuffixOf s then S "." else []))
  let key_points := if key_points0 = [] then [S "영상의 주요 내용을 다룹니다."] else key_points0
  { title := title, one_line_summary := one_line_summary, key_points := key_points }

/-- Key-point selection of the T5-backed curator branch: the six longest
sentences are scanned in order and a candidate is dropped when its word
set overlaps an already chosen point's word set by more than half of the
candidate's word count (`len(set(c.split()) & set(e.split())) > len(c.split()) * 0.5`,
an exact half for integer word counts). -/
def t5CuratorKeyPoints (sentences : List PyStr) : List PyStr :=
  if sentences.length ≥ 3 then
    ((sortDescBy List.length sentences).take 6).foldl
      (fun key_points candidate =>
        if key_points.length ≥ 3 then key_points
        else
          let is_similar := key_points.any (fun existing =>
            2 * wordOverlap candidate existing > (pyWords candidate).length)
          if is_similar then key_points
          else key_points ++
            [candidate ++ (if ¬ (S ".").isSuffixOf candidate then S "." else [])]) []
  else (sentences.take 3).map (fun s => s ++ (if ¬ (S ".").isSuffixOf s then S "." else []))

/-- T5-backed curator branch: two model calls (full summary over the
first 1000 characters, title over the first 500), then key points from
sentences longer than 20 characters with the similarity guard. -/
def t5Curator (f : T5Model) (text : PyStr) : Except PyStr CuratorOut := do
  let full_summary ← f 200 50 (text.take 1000)
  let title ← f 60 15 (text.take 500)
  let sentences := ((splitOnChar '.' text).map pyStrip).filter (fun s => s ≠ [] ∧ s.length > 20)
  let key_points0 := t5CuratorKeyPoints sentences
  let key_points := if key_points0 = [] then [S "영상의 주요 내용을 다룹니다."] else key_points0
  return { title := title, one_line_summary := full_summary, key_points := key_points }

/-- Embedding of the `summarize_curator` handler.  A parsed Gemini
curator payload is a non-empty JSON object, hence truthy. -/
def summarize_curator (env : SummEnv) (text : PyStr) : Resp CuratorOut :=
  let backup : Resp CuratorOut :=
    match env.summarizer with
    | none => .ok (ruleCurator text)
    | some f =>
      match t5Curator f text with
      | .ok c => .ok c
      | .error e => .httpError 500 (S "큐레이션 처리 중 오류 발생: " ++ e)
  if env.use_gemini ∧ env.has_key then
    match env.gemini_curator with
    | some result => .ok result
    | none => backup
  else backup

/-- Split on a non-empty character sequence, scanning left to right
(fuelled recursion; `fuel = length of the input` always suffices because
every step consumes at least one input character). -/
def splitSeqFuel (sep : PyStr) : Nat → PyStr → List PyStr
  | _, [] => [[]]
  | 0, s => [s]
  | fuel + 1, c :: rest =>
    if sep ≠ [] ∧ sep.isPrefixOf (c :: rest) then
      [] :: splitSeqFuel sep fuel ((c :: rest).drop sep.length)
    else
      match splitSeqFuel sep fuel rest with
      | [] => [[c]]
      | h :: t => (c :: h) :: t

/-- Python `str.split(sep)` for a multi-character separator. -/
def pySplitSeq (sep s : PyStr) : List PyStr := splitSeqFuel sep s.length s

/-- Python `str.replace(old, new)`: non-overlapping left-to-right
replacement, i.e. `new.join(s.split(old))`. -/
def pyReplace (s old new : PyStr) : PyStr := pyJoin new (pySplitSeq old s)

/-- Python `sub in s` on strings: `sub` occurs contiguously in `s`. -/
def pyIn (sub s : PyStr) : Bool :=
  (List.range (s.length + 1)).any (fun i => sub.isPrefixOf (s.drop i))

/-- Stop-word set of the rule-based timeline summarizer. -/
def timelineStopWords : List PyStr :=
  [S "을", S "를", S "이", S "가", S "은", S "는", S "의", S "에", S "에서", S "으로",
   S "와", S "과", S "하고", S "그리고", S "또한", S "하지만", S "그런데", S "그래서",
   S "따라서", S "즉", S "것", S "수", S "때", S "곳", S "등"]

/-- Sequential grouping of sentences into paragraphs: close the current
group at 4 sentences or once its space-joined text exceeds 300
characters; a non-empty remainder becomes a final paragraph. -/
def groupSentences (current_paragraph : List PyStr) : List PyStr → List PyStr
  | [] =>
    if current_paragraph ≠ [] then [pyJoin (S ". ") current_paragraph ++ S "."] else []
  | s :: rest =>
    let cur := current_paragraph ++ [s]
    if cur.length ≥ 4 ∨ (pyJoin (S " ") cur).length > 300 then
      (pyJoin (S ". ") cur ++ S ".") :: groupSentences [] rest
    else groupSentences cur rest

/-- Builds the timeline section of the paragraph with index `i`:
timestamp `(3i+1)-(3(i+1))분`, subtitle from the first sentence, summary
from the two longest of the first four sentences, keywords by frequency,
and a colloquial restatement of the first sentence. -/
def mkTimelineSection (i : Nat) (paragraph : PyStr) : TimelineSection :=
  let timestamp := natStr (i * 3 + 1) ++ S "-" ++ natStr ((i + 1) * 3) ++ S "분"
  let first_sentence := pyStrip ((splitOnChar '.' paragraph).headD [])
  let subtitle :=
    if first_sentence.length > 60 then
      pyJoin (S " ") ((pyWords first_sentence).take 8) ++ S "..."
    else first_sentence
  let sentences_in_paragraph := ((splitOnChar '.' paragraph).map pyStrip).filter (· ≠ [])
  let summary :=
    if sentences_in_paragraph.length > 1 then
      pyJoin (S ". ") ((sortDescBy List.length (sentences_in_paragraph.take 4)).take 2) ++ S "."
    else paragraph
  let words := pyWords (pyLower paragraph)
  let meaningful_words := words.filter (fun w => w.length > 1 ∧ w ∉ timelineStopWords)
  let keywords :=
    (sortDescBy (fun p => p.2)
      ((firstOcc meaningful_words).map (fun w => (w, meaningful_words.count w)))).take 4
  let keyword_list := (keywords.filter (fun kw => kw.2 > 1)).map (fun kw => kw.1)
  let oneline :=
    match sentences_in_paragraph with
    | [] => S "핵심 내용이에요"
    | key_sentence :: _ =>
      if pyIn (S "합니다") key_sentence ∨ pyIn (S "습니다") key_sentence then
        pyReplace (pyReplace key_sentence (S "합니다") (S "해요")) (S "습니다") (S "예요")
      else key_sentence ++ S "라는 얘기에요"
  { timestamp := timestamp, subtitle := subtitle, summary := summary,
    keywords := keyword_list, oneline_summary := oneline }

/-- Rule-based timeline tier: empty for stripped input shorter than 20
characters, otherwise sentences longer than 15 characters are grouped
into paragraphs, paragraphs shorter than 20 characters are skipped, and
at most 8 sections are returned.  Its `try`/`except` is dead code: the
body is pure. -/
def ruleTimeline (text0 : PyStr) : List TimelineSection :=
  let text := pyStrip text0
  if text = [] ∨ text.length < 20 then []
  else
    let sentences := ((splitOnChar '.' text).map pyStrip).filter (fun s => s ≠ [] ∧ s.length > 15)
    let paragraphs := groupSentences [] sentences
    let timeline_sections := paragraphs.enum.filterMap (fun ip =>
      if (pyStrip ip.2).length < 20 then none else some (mkTimelineSection ip.1 ip.2))
    timeline_sections.take 8

/-- Embedding of the `summarize_timeline` handler. -/
def summarize_timeline (env : SummEnv) (text : PyStr) : Resp (List TimelineSection) :=
  if env.use_gemini ∧ env.has_key then
    match env.gemini_timeline with
    | some result => if result ≠ [] then .ok result else .ok (ruleTimeline text)
    | none => .ok (ruleTimeline text)
  else .ok (ruleTimeline text)

/-! ## `app.py` — job store and background pipeline

The job record mirrors the dictionary created by the `/transcribe`
handler.  `process_transcription` is embedded with its collaborators as
parameters; both download collaborators catch every internal fault and
return a falsy value (`{}` respectively `None`), so they are modelled as
`Option` payloads, while `os.remove` may genuinely raise.  The embedding
returns the final job record, the final filesystem, and the trace of
every successive job-record value written to the store. -/

/-- One job record of the in-memory `jobs` store. -/
structure Job (σ : Type) where
  status : PyStr
  completed : Bool
  success : Bool
  result : Option (TResult σ)
  error : Option PyStr
  created_at : Nat
deriving DecidableEq

/-- The record created by the `/transcribe` handler at submission time. -/
def initJob (t : Nat) : Job σ :=
  { status := S "비디오 정보 확인 중...", completed := false, success := false,
    result := none, error := none, created_at := t }

/-- Metadata record returned by `get_video_info`. -/
structure VideoInfo where
  title : PyStr
  duration : Nat
  uploader : PyStr
  view_count : Nat
deriving DecidableEq

/-- Collaborators of one run of the background pipeline.  `video_info`
is `none` when `get_video_info` returned its falsy `{}`; `extract_audio`
is `none` when extraction failed; `remove_result` is the outcome of
`os.remove` on the extracted file. -/
structure OrchEnv (σ : Type) where
  video_info : Option VideoInfo
  extract_audio : Option PyStr
  wb : WhisperBackend σ
  gb : GoogleBackend
  remove_result : Except PyStr Unit

/-- Outcome of one run of the background pipeline. -/
structure PipeOut (σ : Type) where
  job : Job σ
  fs : FS
  trace : List (Job σ)

/-- The terminal update of the `except` branch of `process_transcription`:
only `completed`, `success` and `error` are written. -/
def failJob (j : Job σ) (e : PyStr) : Job σ :=
  { j with completed := true, success := false, error := some e }

/-- Final update once the transcription call has returned and cleanup
did not raise: the success update on `result.success`, otherwise the
`raise`/`except` update with the result's error message. -/
def finishJob (j3 : Job σ) (fs : FS) (result : TResult σ) (tr : List (Job σ)) : PipeOut σ :=
  if result.success then
    let j4 := { j3 with status := S "변환 완료!", completed := true, success := true,
                        result := some result }
    ⟨j4, fs, tr ++ [j4]⟩
  else
    let jf := failJob j3 (result.error.getD (S "알 수 없는 오류"))
    ⟨jf, fs, tr ++ [jf]⟩

/-- Embedding of `process_transcription`: the three stages with their
status strings, the transcription dispatch, and the sequential cleanup —
`os.remove` runs inside the `try`, before the success check, so a cleanup
fault lands in the `except` branch. -/
def process_transcription (env : OrchEnv σ) (format method : PyStr) (fs : FS)
    (j0 : Job σ) : PipeOut σ :=
  let j1 := { j0 with status := S "비디오 정보 확인 중..." }
  match env.video_info with
  | none =>
    let jf := failJob j1 (S "비디오 정보를 가져올 수 없습니다")
    ⟨jf, fs, [j1, jf]⟩
  | some _ =>
    let j2 := { j1 with status := S "오디오 추출 중... (" ++ format ++ S ")" }
    match env.extract_audio with
    | none =>
      let jf := failJob j2 (S "오디오 추출에 실패했습니다")
      ⟨jf, fs, [j1, j2, jf]⟩
    | some audio_path =>
      let j3 := { j2 with status := S "음성 인식 중... (" ++ method ++ S ")" }
      let result := SpeechTranscriber.transcribe fs env.wb env.gb audio_path method
      if fs.pathExists audio_path then
        match env.remove_result with
        | .error e =>
          let jf := failJob j3 e
          ⟨jf, fs, [j1, j2, j3, jf]⟩
        | .ok _ => finishJob j3 (fs.removeFile audio_path) result [j1, j2, j3]
      else finishJob j3 fs result [j1, j2, j3]

/-! ## Helper lemmas about the string model -/

theorem pyRStrip_length_le (l : PyStr) : (pyRStrip l).length ≤ l.length := by
  induction l with
  | nil => simp [pyRStrip]
  | cons c rest ih =>
    simp only [pyRStrip]
    split
    · simp
    · simpa using ih

theorem pyLStrip_length_le (l : PyStr) : (pyLStrip l).length ≤ l.length :=
  (List.dropWhile_sublist isSp).length_le

theorem pyStrip_length_le (l : PyStr) : (pyStrip l).length ≤ l.length :=
  le_trans (pyRStrip_length_le _) (pyLStrip_length_le _)

theorem head?_pyLStrip_not_sp {l : PyStr} {c : Char}
    (h : (pyLStrip l).head? = some c) : isSp c = false := by
  induction l with
  | nil => simp [pyLStrip] at h
  | cons a rest ih =>
    by_cases ha : isSp a
    · rw [pyLStrip, List.dropWhile_cons] at h
      simp only [ha, if_true] at h
      exact ih h
    · rw [pyLStrip, List.dropWhile_cons] at h
      rw [if_neg ha] at h
      rw [List.head?_cons] at h
      injection h with h
      subst h
      simpa using ha

theorem pyLStrip_eq_self {l : PyStr} {c : Char}
    (h : l.head? = some c) (hc : isSp c = false) : pyLStrip l = l := by
  cases l with
  | nil => rfl
  | cons a rest =>
    simp only [List.head?_cons, Option.some.injEq] at h
    subst h
    rw [pyLStrip, List.dropWhile_cons]
    simp [hc]

theorem head?_pyRStrip {l : PyStr} {c : Char}
    (h : (pyRStrip l).head? = some c) : l.head? = some c := by
  cases l with
  | nil => simp [pyRStrip] at h
  | cons a rest =>
    simp only [pyRStrip] at h
    split at h
    · simp at h
    · simpa using h

theorem getLast?_pyRStrip_not_sp {l : PyStr} {c : Char}
    (h : (pyRStrip l).getLast? = some c) : isSp c = false := by
  induction l with
  | nil => simp [pyRStrip] at h
  | cons a rest ih =>
    simp only [pyRStrip] at h
    split at h
    · simp at h
    · rename_i hcond
      cases hr : pyRStrip rest with
      | nil =>
        rw [hr] at h
        simp only [List.getLast?_singleton, Option.some.injEq] at h
        subst h
        rw [hr] at hcond
        simpa using hcond
      | cons b t =>
        rw [hr] at h
        rw [List.getLast?_cons_cons] at h
        rw [hr] at ih
        exact ih h

theorem pyRStrip_eq_self {l : PyStr} {c : Char}
    (h : l.getLast? = some c) (hc : isSp c = false) : pyRStrip l = l := by
  induction l with
  | nil => simp at h
  | cons a rest ih =>
    cases rest with
    | nil =>
      simp only [List.getLast?_singleton, Option.some.injEq] at h
      subst h
      simp [pyRStrip, hc]
    | cons b t =>
      rw [List.getLast?_cons_cons] at h
      have hr := ih h
      show (if pyRStrip (b :: t) = [] ∧ isSp a then [] else a :: pyRStrip (b :: t)) = a :: b :: t
      rw [hr]
      simp

theorem head?_pyStrip_not_sp {l : PyStr} {c : Char}
    (h : (pyStrip l).head? = some c) : isSp c = false :=
  head?_pyLStrip_not_sp (head?_pyRStrip h)

theorem getLast?_pyStrip_not_sp {l : PyStr} {c : Char}
    (h : (pyStrip l).getLast? = some c) : isSp c = false :=
  getLast?_pyRStrip_not_sp h

theorem pyStrip_eq_self {l : PyStr} {c d : Char}
    (hh : l.head? = some c) (hc : isSp c = false)
    (hg : l.getLast? = some d) (hd : isSp d = false) : pyStrip l = l := by
  rw [pyStrip, pyLStrip_eq_self hh hc, pyRStrip_eq_self hg hd]

theorem pyStrip_idem (l : PyStr) : pyStrip (pyStrip l) = pyStrip l := by
  cases he : pyStrip l with
  | nil => rfl
  | cons a rest =>
    have hh : (pyStrip l).head? = some a := by rw [he]; rfl
    have hgs : (pyStrip l).getLast?.isSome = true := by
      rw [he]; simp [List.getLast?_isSome]
    obtain ⟨d, hd⟩ := Option.isSome_iff_exists.mp hgs
    have := pyStrip_eq_self hh (head?_pyStrip_not_sp hh) hd (getLast?_pyStrip_not_sp hd)
    rw [he] at this
    rw [← he] at this ⊢
    exact this

theorem splitNN_of_no_nl {l : PyStr} (h : '\n' ∉ l) : splitNN l = [l] := by
  induction l using splitNN.induct with
  | case1 => rfl
  | case2 rest ih => exact absurd (List.mem_cons_self _ _) h
  | case3 c rest h1 ih ih2 =>
    have hr : '\n' ∉ rest := fun hm => h (List.mem_cons_of_mem _ hm)
    rw [ih2 hr] at ih
    exact absurd ih (by simp)
  | case4 c rest h1 hd tl hsp ih =>
    have hr : '\n' ∉ rest := fun hm => h (List.mem_cons_of_mem _ hm)
    rw [splitNN.eq_def]
    split
    · rename_i heq
      simp at heq
    · rename_i rest2 heq
      rw [heq] at h
      exact absurd (List.mem_cons_self _ _) h
    · rename_i c2 rest2 heq
      cases heq
      rw [ih hr]

theorem splitOnChar_of_not_mem {sep : Char} {l : PyStr} (h : sep ∉ l) :
    splitOnChar sep l = [l] := by
  induction l with
  | nil => rfl
  | cons c rest ih =>
    have hc : ¬ c = sep := fun e => h (e ▸ List.mem_cons_self c rest)
    have hr : sep ∉ rest := fun hm => h (List.mem_cons_of_mem _ hm)
    show (if c = sep then [] :: splitOnChar sep rest
          else match splitOnChar sep rest with
            | [] => [[c]]
            | h :: t => (c :: h) :: t) = [c :: rest]
    rw [if_neg hc, ih hr]

theorem sum_length_splitOnChar (sep : Char) (l : PyStr) :
    ((splitOnChar sep l).map List.length).sum ≤ l.length := by
  induction l with
  | nil => simp [splitOnChar]
  | cons c rest ih =>
    have hunf : splitOnChar sep (c :: rest) =
        if c = sep then [] :: splitOnChar sep rest
        else match splitOnChar sep rest with
          | [] => [[c]]
          | h :: t => (c :: h) :: t := rfl
    rw [hunf]
    by_cases hc : c = sep
    · rw [if_pos hc]
      simp only [List.map_cons, List.sum_cons, List.length_nil, List.length_cons]
      omega
    · rw [if_neg hc]
      cases hsp : splitOnChar sep rest with
      | nil => simp
      | cons hd tl =>
        rw [hsp] at ih
        simp only [List.map_cons, List.sum_cons, List.length_cons] at ih ⊢
        omega

theorem mul_le_sum_length {n : Nat} (l : List PyStr) (h : ∀ s ∈ l, n ≤ s.length) :
    l.length * n ≤ (l.map List.length).sum := by
  induction l with
  | nil => simp
  | cons a t ih =>
    simp only [List.length_cons, List.map_cons, List.sum_cons]
    have ha := h a (List.mem_cons_self a t)
    have ht := ih (fun s hs => h s (List.mem_cons_of_mem _ hs))
    calc (t.length + 1) * n = t.length * n + n := by ring
    _ ≤ (t.map List.length).sum + a.length := Nat.add_le_add ht ha
    _ = a.length + (t.map List.length).sum := by omega

theorem pyMaxLen_mem {l : List PyStr} (d : PyStr) (h : l ≠ []) : pyMaxLen d l ∈ l := by
  cases l with
  | nil => exact absurd rfl h
  | cons a t =>
    suffices hs : ∀ (t : List PyStr) (acc : PyStr),
        (t.foldl (fun acc x => if x.length > acc.length then x else acc) acc) = acc ∨
        (t.foldl (fun acc x => if x.length > acc.length then x else acc) acc) ∈ t by
      rcases hs t a with he | hm
      · rw [pyMaxLen, he]; exact List.mem_cons_self a t
      · exact List.mem_cons_of_mem _ hm
    intro t
    induction t with
    | nil => intro acc; exact Or.inl rfl
    | cons x xs ih =>
      intro acc
      simp only [List.foldl_cons]
      rcases ih (if x.length > acc.length then x else acc) with he | hm
      · rw [he]
        by_cases hx : x.length > acc.length
        · rw [if_pos hx]; exact Or.inr (List.mem_cons_self x xs)
        · rw [if_neg hx]; exact Or.inl rfl
      · exact Or.inr (List.mem_cons_of_mem _ hm)

theorem mem_infix_pyJoin {x : PyStr} {xs : List PyStr} (sep : PyStr) (h : x ∈ xs) :
    x <:+: pyJoin sep xs := by
  induction xs with
  | nil => simp at h
  | cons a t ih =>
    cases t with
    | nil =>
      simp only [List.mem_singleton] at h
      subst h
      exact List.infix_rfl
    | cons b u =>
      rcases List.mem_cons.mp h with he | hm
      · subst he
        exact ⟨[], sep ++ pyJoin sep (b :: u), by simp [pyJoin]⟩
      · obtain ⟨s, t', ht⟩ := ih hm
        exact ⟨a ++ sep ++ s, t', by rw [pyJoin]; rw [← ht]; simp⟩

theorem infix_extend_left {x s t : PyStr} (h : x <:+: t) : x <:+: s ++ t := by
  obtain ⟨u, v, huv⟩ := h
  exact ⟨s ++ u, v, by rw [← huv]; simp⟩

/-! ## Claim theorems -/

/-- C1: for every audio path that passes the preconditions (non-empty
path, existing, non-empty file) and dual dispatch (`method = "both"`),
`transcribe` builds its result from both backends — the whisper
sub-result from the whisper backend alone and the google sub-result from
the google backend alone, so a fault in one backend cannot prevent or
alter the other's invocation; each backend's failure is captured inside
its own sub-result as `success=false` with an `error`, and the outer
result always has `success=true` and `method="both"`. -/
theorem both_dispatch_isolated {σ : Type} (fs : FS) (wb : WhisperBackend σ)
    (gb : GoogleBackend) (audio_path : PyStr)
    (hne : audio_path ≠ []) (hex : fs.pathExists audio_path = true)
    (hsz : fs.size audio_path ≠ 0) :
    SpeechTranscriber.transcribe fs wb gb audio_path (S "both") =
      { whisper := some (transcribe_with_whisper wb audio_path),
        google := some (transcribe_with_google gb audio_path),
        success := true, method := some (S "both") } ∧
    (∀ e, wb audio_path = .error e →
      (transcribe_with_whisper wb audio_path).success = false ∧
      (transcribe_with_whisper wb audio_path).error = some e) ∧
    ((∀ t, gb audio_path ≠ GoogleOutcome.ok t) →
      (transcribe_with_google (σ := σ) gb audio_path).success = false ∧
      ((transcribe_with_google (σ := σ) gb audio_path).error).isSome = true) := by
  refine ⟨?_, ?_, ?_⟩
  · rw [SpeechTranscriber.transcribe]
    rw [if_neg hne, if_neg (by simp [hex]), if_neg hsz,
      if_neg (by decide), if_neg (by decide), if_pos rfl]
  · intro e he
    unfold transcribe_with_whisper
    rw [he]
    exact ⟨rfl, rfl⟩
  · intro hnok
    unfold transcribe_with_google
    cases hg : gb audio_path with
    | ok t => exact absurd hg (hnok t)
    | unknownValue => exact ⟨rfl, rfl⟩
    | requestErr e => exact ⟨rfl, rfl⟩
    | exc e => exact ⟨rfl, rfl⟩

/-- Filesystem used by the C1 witness. -/
def c1fs : FS := { files := [(S "/downloads/a.mp3", 100)], dirs := [S "/downloads"] }

/-- Faulting whisper backend used by the C1 witness. -/
def c1wb : WhisperBackend Unit := fun _ => .error (S "whisper fault")

/-- Succeeding google backend used by the C1 witness. -/
def c1gb : GoogleBackend := fun _ => .ok (S "안녕하세요")

/-- Witness for C1 at a concrete filesystem, a faulting whisper backend
and a succeeding google backend. -/
theorem both_dispatch_isolated_witness :
    SpeechTranscriber.transcribe c1fs c1wb c1gb (S "/downloads/a.mp3") (S "both") =
      { whisper := some (transcribe_with_whisper c1wb (S "/downloads/a.mp3")),
        google := some (transcribe_with_google c1gb (S "/downloads/a.mp3")),
        success := true, method := some (S "both") } ∧
    (transcribe_with_whisper c1wb (S "/downloads/a.mp3")).success = false ∧
    (transcribe_with_whisper c1wb (S "/downloads/a.mp3")).error = some (S "whisper fault") := by
  have h := both_dispatch_isolated c1fs c1wb c1gb (S "/downloads/a.mp3")
    (by decide) (by decide) (by decide)
  exact ⟨h.1, h.2.1 (S "whisper fault") rfl⟩

theorem infix_append_left_of {x s t : PyStr} (h : x <:+: s) : x <:+: s ++ t := by
  obtain ⟨u, v, huv⟩ := h
  exact ⟨u, v ++ t, by rw [← huv]; simp⟩

theorem prefix_append_extend {x s t : PyStr} (h : x <+: s) : x <+: s ++ t :=
  h.trans (List.prefix_append s t)

theorem missingFileMsg_has_marker (fs : FS) (audio_path : PyStr) :
    S "파일을 찾을 수 없습니다" <+: missingFileMsg fs audio_path := by
  have hpre : S "파일을 찾을 수 없습니다" <+: S "파일을 찾을 수 없습니다: " := by decide
  rw [missingFileMsg]
  by_cases hd : fs.dirExists (dirname audio_path) = true
  · rw [if_pos hd]
    exact prefix_append_extend (prefix_append_extend (prefix_append_extend
      (prefix_append_extend (prefix_append_extend (prefix_append_extend
        (prefix_append_extend hpre))))))
  · rw [if_neg hd]
    exact prefix_append_extend (prefix_append_extend (prefix_append_extend hpre))

theorem missingFileMsg_lists_siblings (fs : FS) (audio_path : PyStr)
    (hd : fs.dirExists (dirname audio_path) = true) :
    ∀ f ∈ ((fs.listdir (dirname audio_path)).filter isAudioName).take 5,
      f <:+: missingFileMsg fs audio_path := by
  intro f hf
  rw [missingFileMsg, if_pos hd]
  have h1 : f <:+: pyJoin (S ", ")
      (((fs.listdir (dirname audio_path)).filter isAudioName).take 5) :=
    mem_infix_pyJoin _ hf
  exact infix_append_left_of (infix_extend_left h1)

/-- C8: for every filesystem, every non-empty audio path and every
method, `transcribe` checks the file preconditions before dispatching to
any backend (the failure results do not depend on the backends or the
method): a missing file yields `success=false` with an error message
starting with "파일을 찾을 수 없습니다" that also contains every listed audio
sibling of the same directory, and an existing but empty (zero-byte)
file yields `success=false` with the "file is empty" error.  Both
branches return a dictionary instead of raising — the embedding is a
total function. -/
theorem transcribe_preconditions {σ : Type} (fs : FS) (wb : WhisperBackend σ)
    (gb : GoogleBackend) (audio_path method : PyStr) (hne : audio_path ≠ []) :
    (fs.pathExists audio_path = false →
      (SpeechTranscriber.transcribe fs wb gb audio_path method).success = false ∧
      (SpeechTranscriber.transcribe fs wb gb audio_path method).error =
        some (missingFileMsg fs audio_path) ∧
      S "파일을 찾을 수 없습니다" <+: missingFileMsg fs audio_path ∧
      (fs.dirExists (dirname audio_path) = true →
        ∀ f ∈ ((fs.listdir (dirname audio_path)).filter isAudioName).take 5,
          f <:+: missingFileMsg fs audio_path)) ∧
    (fs.pathExists audio_path = true → fs.size audio_path = 0 →
      (SpeechTranscriber.transcribe fs wb gb audio_path method).success = false ∧
      (SpeechTranscriber.transcribe fs wb gb audio_path method).error =
        some (S "오디오 파일이 비어있습니다: " ++ audio_path)) := by
  constructor
  · intro hmiss
    rw [SpeechTranscriber.transcribe, if_neg hne, if_pos (by simp [hmiss])]
    exact ⟨rfl, rfl, missingFileMsg_has_marker fs audio_path,
      missingFileMsg_lists_siblings fs audio_path⟩
  · intro hex hsz
    rw [SpeechTranscriber.transcribe, if_neg hne, if_neg (by simp [hex]), if_pos hsz]
    exact ⟨rfl, rfl⟩

/-- Filesystem used by the C8 witness. -/
def c8fs : FS :=
  { files := [(S "/dl/a.mp3", 10), (S "/dl/b.wav", 5), (S "/dl/c.txt", 1),
              (S "/dl/empty.mp3", 0)],
    dirs := [S "/dl"] }

/-- Whisper backend used by the C8 witness (never reached). -/
def c8wb : WhisperBackend Unit := fun _ => .error (S "unused")

/-- Google backend used by the C8 witness (never reached). -/
def c8gb : GoogleBackend := fun _ => .unknownValue

/-- Witness for C8: a missing path fails with the marker message that
mentions the sibling audio file `a.mp3`, and the zero-byte file fails
with the emptiness error. -/
theorem transcribe_preconditions_witness :
    (SpeechTranscriber.transcribe c8fs c8wb c8gb (S "/dl/missing.mp3") (S "whisper")).success
      = false ∧
    S "파일을 찾을 수 없습니다" <+: missingFileMsg c8fs (S "/dl/missing.mp3") ∧
    S "a.mp3" <:+: missingFileMsg c8fs (S "/dl/missing.mp3") ∧
    (SpeechTranscriber.transcribe c8fs c8wb c8gb (S "/dl/empty.mp3") (S "both")).success
      = false ∧
    (SpeechTranscriber.transcribe c8fs c8wb c8gb (S "/dl/empty.mp3") (S "both")).error =
      some (S "오디오 파일이 비어있습니다: /dl/empty.mp3") := by
  have h1 := (transcribe_preconditions c8fs c8wb c8gb (S "/dl/missing.mp3") (S "whisper")
    (by decide)).1 (by decide)
  have h2 := (transcribe_preconditions c8fs c8wb c8gb (S "/dl/empty.mp3") (S "both")
    (by decide)).2 (by decide) (by decide)
  refine ⟨h1.1, h1.2.2.1, ?_, h2.1, ?_⟩
  · exact h1.2.2.2 (by decide) (S "a.mp3") (by decide)
  · rw [h2.2]
    decide

/-- C6: the rule-based timeline summarizer returns at most 8 sections,
and every returned section is the section of some paragraph index `i`,
whose timestamp is `(3i+1)-(3(i+1))분` — i.e. of the form
`<start>-<end>분` with `end = start + 2`. -/
theorem timeline_sections_shape (text : PyStr) :
    (ruleTimeline text).length ≤ 8 ∧
    ∀ sec ∈ ruleTimeline text, ∃ i,
      sec.timestamp = natStr (i * 3 + 1) ++ S "-" ++ natStr (i * 3 + 1 + 2) ++ S "분" := by
  constructor
  · simp only [ruleTimeline]
    split
    · simp
    · exact List.length_take_le 8 _
  · intro sec hsec
    simp only [ruleTimeline] at hsec
    split at hsec
    · simp at hsec
    · have hsec' := List.mem_of_mem_take hsec
      obtain ⟨⟨i, p⟩, hip, hf⟩ := List.mem_filterMap.mp hsec'
      by_cases hshort : (pyStrip p).length < 20
      · rw [if_pos hshort] at hf
        simp at hf
      · rw [if_neg hshort] at hf
        simp only [Option.some.injEq] at hf
        subst hf
        refine ⟨i, ?_⟩
        show natStr (i * 3 + 1) ++ S "-" ++ natStr ((i + 1) * 3) ++ S "분" =
          natStr (i * 3 + 1) ++ S "-" ++ natStr (i * 3 + 1 + 2) ++ S "분"
        have h3 : (i + 1) * 3 = i * 3 + 1 + 2 := by ring
        rw [h3]

/-- Input text used by the C6 witness. -/
def c6text : PyStr := S "first sentence is long enough one. second sentence also long enough."

set_option maxRecDepth 4000 in
/-- Witness for C6: the concrete input yields a section whose timestamp
has the `(3i+1)-(3i+3)분` shape. -/
theorem timeline_sections_shape_witness :
    (ruleTimeline c6text).length ≤ 8 ∧
    ∃ i, ((ruleTimeline c6text).headD ⟨[], [], [], [], []⟩).timestamp =
      natStr (i * 3 + 1) ++ S "-" ++ natStr (i * 3 + 1 + 2) ++ S "분" := by
  have h := timeline_sections_shape c6text
  exact ⟨h.1, h.2 _ (by decide)⟩

/-- C10: whenever the background pipeline ends in failure, the terminal
update wrote only `completed`, `success` and `error`: the job's `result`
and `created_at` are unchanged and the `status` string is still one of
the three in-progress stage strings (it never indicates failure). -/
theorem failed_job_frame {σ : Type} (env : OrchEnv σ) (format method : PyStr) (fs : FS)
    (j0 : Job σ) (h : (process_transcription env format method fs j0).job.success = false) :
    (process_transcription env format method fs j0).job.completed = true ∧
    (process_transcription env format method fs j0).job.result = j0.result ∧
    (process_transcription env format method fs j0).job.created_at = j0.created_at ∧
    ((process_transcription env format method fs j0).job.status = S "비디오 정보 확인 중..." ∨
     (process_transcription env format method fs j0).job.status =
       S "오디오 추출 중... (" ++ format ++ S ")" ∨
     (process_transcription env format method fs j0).job.status =
       S "음성 인식 중... (" ++ method ++ S ")") := by
  cases hv : env.video_info with
  | none => simp [process_transcription, hv, failJob]
  | some vi =>
    cases ha : env.extract_audio with
    | none => simp [process_transcription, hv, ha, failJob]
    | some audio_path =>
      by_cases hp : fs.pathExists audio_path = true
      · cases hr : env.remove_result with
        | error e => simp [process_transcription, hv, ha, hp, hr, failJob]
        | ok u =>
          by_cases hs : (SpeechTranscriber.transcribe fs env.wb env.gb audio_path method).success
            = true
          · simp [process_transcription, hv, ha, hp, hr, finishJob, hs] at h
          · simp [process_transcription, hv, ha, hp, hr, finishJob, hs, failJob]
      · by_cases hs : (SpeechTranscriber.transcribe fs env.wb env.gb audio_path method).success
          = true
        · simp [process_transcription, hv, ha, hp, finishJob, hs] at h
        · simp [process_transcription, hv, ha, hp, finishJob, hs, failJob]

/-- Environment used by the C10 witness: metadata lookup yields nothing,
so the job fails at the first stage. -/
def c10env : OrchEnv Unit :=
  { video_info := none, extract_audio := none,
    wb := fun _ => .error (S "unused"), gb := fun _ => .unknownValue,
    remove_result := .ok () }

/-- Witness for C10 at a concrete failing environment. -/
theorem failed_job_frame_witness :
    (process_transcription c10env (S "mp3") (S "whisper") ⟨[], []⟩
      (initJob 0)).job.completed = true ∧
    (process_transcription c10env (S "mp3") (S "whisper") ⟨[], []⟩
      (initJob 0)).job.result = (initJob 0 : Job Unit).result ∧
    (process_transcription c10env (S "mp3") (S "whisper") ⟨[], []⟩
      (initJob 0)).job.created_at = (initJob 0 : Job Unit).created_at ∧
    ((process_transcription c10env (S "mp3") (S "whisper") ⟨[], []⟩
      (initJob 0)).job.status = S "비디오 정보 확인 중..." ∨
     (process_transcription c10env (S "mp3") (S "whisper") ⟨[], []⟩
      (initJob 0)).job.status = S "오디오 추출 중... (" ++ S "mp3" ++ S ")" ∨
     (process_transcription c10env (S "mp3") (S "whisper") ⟨[], []⟩
      (initJob 0)).job.status = S "음성 인식 중... (" ++ S "whisper" ++ S ")") :=
  failed_job_frame c10env (S "mp3") (S "whisper") ⟨[], []⟩ (initJob 0) (by decide)
/-- Small fact used by the C7 proof. -/
theorem status1_ne_nil : S "비디오 정보 확인 중..." ≠ [] := by decide

theorem append3_ne_nil {a b c : PyStr} (h : a ≠ []) : a ++ b ++ c ≠ [] := by
  intro hcon
  rw [List.append_eq_nil, List.append_eq_nil] at hcon
  exact h hcon.1.1

theorem status2_ne_nil (format : PyStr) : S "오디오 추출 중... (" ++ format ++ S ")" ≠ [] :=
  append3_ne_nil (by decide)

theorem status3_ne_nil (method : PyStr) : S "음성 인식 중... (" ++ method ++ S ")" ≠ [] :=
  append3_ne_nil (by decide)

/-- C7: every job-record value ever stored for a submitted job — the
record created at submission and every successive value written by the
background pipeline — satisfies: at most one of `result`/`error` is
non-null; both are null while `completed` is false, and the status
string is then non-empty; once `completed` is true, exactly one of
`result`/`error` is set. -/
theorem job_store_invariant {σ : Type} (env : OrchEnv σ) (format method : PyStr) (fs : FS)
    (t : Nat) :
    ∀ j ∈ (initJob t :: (process_transcription env format method fs (initJob t)).trace
        : List (Job σ)),
      (¬ (j.result.isSome = true ∧ j.error.isSome = true)) ∧
      (j.completed = false → j.result = none ∧ j.error = none ∧ j.status ≠ []) ∧
      (j.completed = true → j.result.isSome = !j.error.isSome) := by
  intro j hj
  rw [List.mem_cons] at hj
  rcases hj with rfl | hj
  · exact ⟨by simp [initJob], fun _ => ⟨rfl, rfl, status1_ne_nil⟩, fun hc => by simp [initJob] at hc⟩
  · cases hv : env.video_info with
    | none =>
      simp [process_transcription, hv, failJob] at hj
      rcases hj with rfl | rfl
      · exact ⟨by simp [initJob], fun _ => ⟨rfl, rfl, status1_ne_nil⟩,
          fun hc => by simp [initJob] at hc⟩
      · exact ⟨by simp [initJob], fun hc => by simp at hc, fun _ => by simp [initJob]⟩
    | some vi =>
      cases ha : env.extract_audio with
      | none =>
        simp [process_transcription, hv, ha, failJob] at hj
        rcases hj with rfl | rfl | rfl
        · exact ⟨by simp [initJob], fun _ => ⟨rfl, rfl, status1_ne_nil⟩,
            fun hc => by simp [initJob] at hc⟩
        · exact ⟨by simp [initJob], fun _ => ⟨rfl, rfl, status2_ne_nil format⟩,
            fun hc => by simp [initJob] at hc⟩
        · exact ⟨by simp [initJob], fun hc => by simp at hc, fun _ => by simp [initJob]⟩
      | some audio_path =>
        by_cases hp : fs.pathExists audio_path = true
        · cases hr : env.remove_result with
          | error e =>
            simp [process_transcription, hv, ha, hp, hr, failJob] at hj
            rcases hj with rfl | rfl | rfl | rfl
            · exact ⟨by simp [initJob], fun _ => ⟨rfl, rfl, status1_ne_nil⟩,
                fun hc => by simp [initJob] at hc⟩
            · exact ⟨by simp [initJob], fun _ => ⟨rfl, rfl, status2_ne_nil format⟩,
                fun hc => by simp [initJob] at hc⟩
            · exact ⟨by simp [initJob], fun _ => ⟨rfl, rfl, status3_ne_nil method⟩,
                fun hc => by simp [initJob] at hc⟩
            · exact ⟨by simp [initJob], fun hc => by simp at hc, fun _ => by simp [initJob]⟩
          | ok u =>
            by_cases hs : (SpeechTranscriber.transcribe fs env.wb env.gb audio_path
                method).success = true
            · simp [process_transcription, hv, ha, hp, hr, finishJob, hs, failJob] at hj
              rcases hj with rfl | rfl | rfl | rfl
              · exact ⟨by simp [initJob], fun _ => ⟨rfl, rfl, status1_ne_nil⟩,
                  fun hc => by simp [initJob] at hc⟩
              · exact ⟨by simp [initJob], fun _ => ⟨rfl, rfl, status2_ne_nil format⟩,
                  fun hc => by simp [initJob] at hc⟩
              · exact ⟨by simp [initJob], fun _ => ⟨rfl, rfl, status3_ne_nil method⟩,
                  fun hc => by simp [initJob] at hc⟩
              · exact ⟨by simp [initJob], fun hc => by simp at hc, fun _ => by simp [initJob]⟩
            · simp [process_transcription, hv, ha, hp, hr, finishJob, hs, failJob] at hj
              rcases hj with rfl | rfl | rfl | rfl
              · exact ⟨by simp [initJob], fun _ => ⟨rfl, rfl, status1_ne_nil⟩,
                  fun hc => by simp [initJob] at hc⟩
              · exact ⟨by simp [initJob], fun _ => ⟨rfl, rfl, status2_ne_nil format⟩,
                  fun hc => by simp [initJob] at hc⟩
              · exact ⟨by simp [initJob], fun _ => ⟨rfl, rfl, status3_ne_nil method⟩,
                  fun hc => by simp [initJob] at hc⟩
              · exact ⟨by simp [initJob], fun hc => by simp at hc, fun _ => by simp [initJob]⟩
        · by_cases hs : (SpeechTranscriber.transcribe fs env.wb env.gb audio_path
              method).success = true
          · simp [process_transcription, hv, ha, hp, finishJob, hs, failJob] at hj
            rcases hj with rfl | rfl | rfl | rfl
            · exact ⟨by simp [initJob], fun _ => ⟨rfl, rfl, status1_ne_nil⟩,
                fun hc => by simp [initJob] at hc⟩
            · exact ⟨by simp [initJob], fun _ => ⟨rfl, rfl, status2_ne_nil format⟩,
                fun hc => by simp [initJob] at hc⟩
            · exact ⟨by simp [initJob], fun _ => ⟨rfl, rfl, status3_ne_nil method⟩,
                fun hc => by simp [initJob] at hc⟩
            · exact ⟨by simp [initJob], fun hc => by simp at hc, fun _ => by simp [initJob]⟩
          · simp [process_transcription, hv, ha, hp, finishJob, hs, failJob] at hj
            rcases hj with rfl | rfl | rfl | rfl
            · exact ⟨by simp [initJob], fun _ => ⟨rfl, rfl, status1_ne_nil⟩,
                fun hc => by simp [initJob] at hc⟩
            · exact ⟨by simp [initJob], fun _ => ⟨rfl, rfl, status2_ne_nil format⟩,
                fun hc => by simp [initJob] at hc⟩
            · exact ⟨by simp [initJob], fun _ => ⟨rfl, rfl, status3_ne_nil method⟩,
                fun hc => by simp [initJob] at hc⟩
            · exact ⟨by simp [initJob], fun hc => by simp at hc, fun _ => by simp [initJob]⟩

/-- Environment used by the C7 witness. -/
def c7env : OrchEnv Unit :=
  { video_info := some ⟨S "title", 10, S "uploader", 3⟩,
    extract_audio := some (S "/dl/a.mp3"),
    wb := fun _ => .ok ⟨S " hello ", S "ko", ()⟩,
    gb := fun _ => .ok (S "hi"),
    remove_result := .ok () }

/-- Filesystem used by the C7 witness. -/
def c7fs : FS := { files := [(S "/dl/a.mp3", 9)], dirs := [S "/dl"] }

/-- Witness for C7: the invariant holds for the record created at
submission time in a concrete run. -/
theorem job_store_invariant_witness :
    ¬ ((initJob 5 : Job Unit).result.isSome = true ∧
        (initJob 5 : Job Unit).error.isSome = true) ∧
    ((initJob 5 : Job Unit).completed = false →
      (initJob 5 : Job Unit).result = none ∧ (initJob 5 : Job Unit).error = none ∧
      (initJob 5 : Job Unit).status ≠ []) ∧
    ((initJob 5 : Job Unit).completed = true →
      (initJob 5 : Job Unit).result.isSome = !(initJob 5 : Job Unit).error.isSome) :=
  job_store_invariant c7env (S "mp3") (S "whisper") c7fs 5 (initJob 5)
    (List.mem_cons_self _ _)

/-- C2 (amended): with the Gemini tier disabled, the key-summary endpoint
uses the deterministic rule-based tier exactly when the T5 model is
unavailable (and then never returns an HTTP-level error, the tier being
total); when the T5 model is loaded but its processing faults, the
endpoint returns an HTTP 500 error immediately, without falling through
to the deterministic tier. -/
theorem t5_fault_gives_http_error (env : SummEnv) (text : PyStr)
    (hg : env.use_gemini = false) :
    (env.summarizer = none → summarize_key_points env text = .ok (ruleKeySummary text)) ∧
    (∀ f e, env.summarizer = some f → t5KeySummary f text = .error e →
      summarize_key_points env text = .httpError 500 (S "요약 처리 중 오류 발생: " ++ e)) := by
  constructor
  · intro hs
    simp [summarize_key_points, hg, hs]
  · intro f e hs ht
    simp [summarize_key_points, hg, hs, ht]

/-- T5 model used by the C2 counterexample and witness: it always faults. -/
def c2model : T5Model := fun _ _ _ => .error (S "model crash")

/-- Summarization environment of the C2 counterexample: Gemini disabled,
T5 model loaded but faulting. -/
def c2env : SummEnv :=
  { use_gemini := false, has_key := false, gemini_key_points := none,
    gemini_curator := none, gemini_timeline := none, summarizer := some c2model }

/-- The same environment with the T5 model unavailable. -/
def c2envNone : SummEnv := { c2env with summarizer := none }

/-- Input of the C2 counterexample: a single paragraph long enough to
reach the model call. -/
def c2text : PyStr := S "this single paragraph text is long enough to reach the model call yes."

set_option maxRecDepth 10000 in
/-- Counterexample to C2 as stated: on this input the T5 tier faults and
the endpoint answers HTTP 500 — even though the deterministic rule-based
tier succeeds on the very same input (second conjunct), so the chain did
not fall through and an HTTP-level error was returned although not every
tier faults. -/
theorem t5_fault_not_fallthrough :
    summarize_key_points c2env c2text =
      .httpError 500 (S "요약 처리 중 오류 발생: model crash") ∧
    summarize_key_points c2envNone c2text = .ok [c2text] := by decide

set_option maxRecDepth 10000 in
/-- Witness for the amended C2 at the concrete environments. -/
theorem t5_fault_gives_http_error_witness :
    summarize_key_points c2envNone c2text = .ok (ruleKeySummary c2text) ∧
    summarize_key_points c2env c2text =
      .httpError 500 (S "요약 처리 중 오류 발생: " ++ S "model crash") :=
  ⟨(t5_fault_gives_http_error c2envNone c2text rfl).1 rfl,
   (t5_fault_gives_http_error c2env c2text rfl).2 c2model (S "model crash") rfl (by rfl)⟩

/-- C3 (amended): once a job has reached the transcription stage with an
existing extracted file, the file is removed whenever the cleanup call
succeeds — on the transcription-success exit and on the backend-failure
exit alike (the transcription call itself is total, so there is no
unexpected-fault exit between extraction and cleanup); but the cleanup
runs inside the `try` before the success check, so a fault of the
cleanup step itself marks the job failed with the cleanup error even
when transcription succeeded. -/
theorem cleanup_behavior {σ : Type} (env : OrchEnv σ) (format method : PyStr) (fs : FS)
    (j0 : Job σ) (audio_path : PyStr) (vi : VideoInfo)
    (hv : env.video_info = some vi) (ha : env.extract_audio = some audio_path)
    (hp : fs.pathExists audio_path = true) :
    (env.remove_result = .ok () →
      (process_transcription env format method fs j0).fs = fs.removeFile audio_path) ∧
    (∀ e, env.remove_result = .error e →
      (SpeechTranscriber.transcribe fs env.wb env.gb audio_path method).success = true →
      (process_transcription env format method fs j0).job.completed = true ∧
      (process_transcription env format method fs j0).job.success = false ∧
      (process_transcription env format method fs j0).job.error = some e) := by
  constructor
  · intro hr
    by_cases hs : (SpeechTranscriber.transcribe fs env.wb env.gb audio_path method).success
      = true
    · simp [process_transcription, hv, ha, hp, hr, finishJob, hs]
    · simp [process_transcription, hv, ha, hp, hr, finishJob, hs, failJob]
  · intro e hr _
    simp [process_transcription, hv, ha, hp, hr, failJob]

/-- Filesystem of the C3 counterexample. -/
def c3fs : FS := { files := [(S "/dl/a.mp3", 9)], dirs := [S "/dl"] }

/-- Environment of the C3 counterexample: the pipeline reaches the
transcription stage, the google backend succeeds, and `os.remove`
faults. -/
def c3env : OrchEnv Unit :=
  { video_info := some ⟨S "title", 10, S "up", 3⟩,
    extract_audio := some (S "/dl/a.mp3"),
    wb := fun _ => .error (S "unused"),
    gb := fun _ => .ok (S "hello"),
    remove_result := .error (S "Permission denied") }

/-- Counterexample to C3 as stated: transcription succeeds, but the
cleanup fault turns the job into a failure — and the audio file is not
removed on this exit path either. -/
theorem cleanup_fault_masks_success :
    (SpeechTranscriber.transcribe c3fs c3env.wb c3env.gb (S "/dl/a.mp3") (S "google")).success
      = true ∧
    (process_transcription c3env (S "mp3") (S "google") c3fs (initJob 0)).job.completed
      = true ∧
    (process_transcription c3env (S "mp3") (S "google") c3fs (initJob 0)).job.success
      = false ∧
    (process_transcription c3env (S "mp3") (S "google") c3fs (initJob 0)).job.error =
      some (S "Permission denied") ∧
    (process_transcription c3env (S "mp3") (S "google") c3fs (initJob 0)).fs.pathExists
      (S "/dl/a.mp3") = true := by decide

/-- Environment for the C3 witness: same run but with a succeeding
cleanup. -/
def c3envOk : OrchEnv Unit := { c3env with remove_result := .ok () }

/-- Witness for the amended C3 at concrete inputs: with a succeeding
cleanup the file is removed, and with a faulting cleanup a successful
transcription is reported as a failed job. -/
theorem cleanup_behavior_witness :
    (process_transcription c3envOk (S "mp3") (S "google") c3fs (initJob 0)).fs =
      c3fs.removeFile (S "/dl/a.mp3") ∧
    ((process_transcription c3env (S "mp3") (S "google") c3fs (initJob 0)).job.completed
      = true ∧
     (process_transcription c3env (S "mp3") (S "google") c3fs (initJob 0)).job.success
      = false ∧
     (process_transcription c3env (S "mp3") (S "google") c3fs (initJob 0)).job.error =
      some (S "Permission denied")) :=
  ⟨(cleanup_behavior c3envOk (S "mp3") (S "google") c3fs (initJob 0) (S "/dl/a.mp3")
      ⟨S "title", 10, S "up", 3⟩ rfl rfl (by decide)).1 rfl,
   (cleanup_behavior c3env (S "mp3") (S "google") c3fs (initJob 0) (S "/dl/a.mp3")
      ⟨S "title", 10, S "up", 3⟩ rfl rfl (by decide)).2 (S "Permission denied") rfl
      (by decide)⟩

/-- C4 (amended): the model-unavailable curator tier produces at least
one key point for any input with at least one period-delimited sentence
longer than 10 characters (the placeholder even guarantees one for any
input); it applies no similarity guard, so chosen points may share more
than 50% of one point's words — the guard exists only in the T5-backed
branch. -/
theorem curator_rule_nonempty_key_points (text : PyStr)
    (h : curatorSentences text ≠ []) :
    (ruleCurator text).key_points ≠ [] := by
  simp only [ruleCurator]
  split <;> split <;> simp_all

/-- Input of the C4 counterexample: two sentences with identical word
sets. -/
def c4text : PyStr := S "aaa bbb ccc ddd. bbb aaa ccc ddd."

/-- Counterexample to C4 as stated: the model-unavailable curator tier
chooses two key points whose word sets overlap in all four of the second
point's words — more than 50% of its word count. -/
theorem curator_rule_shares_words :
    (ruleCurator c4text).key_points = [S "aaa bbb ccc ddd.", S "bbb aaa ccc ddd."] ∧
    2 * wordOverlap (S "bbb aaa ccc ddd.") (S "aaa bbb ccc ddd.") >
      (pyWords (S "bbb aaa ccc ddd.")).length := by decide

/-- Witness for the amended C4 at the concrete input. -/
theorem curator_rule_nonempty_key_points_witness :
    curatorSentences c4text ≠ [] ∧ (ruleCurator c4text).key_points ≠ [] :=
  ⟨by decide, curator_rule_nonempty_key_points c4text (by decide)⟩

/-- C5 (amended): input of fewer than 20 characters yields an empty
sequence from the rule-based timeline tier; the rule-based curator tier
yields its single generic placeholder result when the input has no
period-delimited sentence longer than 10 characters; and the rule-based
key-summary tier yields an empty sequence — not a placeholder — when
segmentation leaves no paragraph (e.g. for empty input).  All three
tiers are total functions, so none raises. -/
theorem short_input_behavior (text : PyStr) (h : text.length < 20) :
    ruleTimeline text = [] ∧
    (curatorSentences text = [] → ruleCurator text =
      { title := S "YouTube 영상 요약", one_line_summary := S "영상 내용 요약",
        key_points := [S "영상의 주요 내용을 다룹니다."] }) ∧
    (keyParagraphs text = [] → ruleKeySummary text = []) := by
  refine ⟨?_, ?_, ?_⟩
  · have hlt : (pyStrip text).length < 20 := lt_of_le_of_lt (pyStrip_length_le text) h
    simp [ruleTimeline, hlt]
  · intro hs
    simp [ruleCurator, hs]
  · intro hp
    simp [ruleKeySummary, hp]

/-- Counterexample to C5 as stated: the empty input is shorter than 20
characters, yet the rule-based key-summary tier returns an empty
sequence, not a single generic placeholder entry. -/
theorem key_summary_empty_for_empty_input :
    (S "").length < 20 ∧ ruleKeySummary (S "") = [] := by decide

/-- Witness for the amended C5 at the empty input. -/
theorem short_input_behavior_witness :
    ruleTimeline (S "") = [] ∧
    ruleCurator (S "") =
      { title := S "YouTube 영상 요약", one_line_summary := S "영상 내용 요약",
        key_points := [S "영상의 주요 내용을 다룹니다."] } ∧
    ruleKeySummary (S "") = [] := by
  have h := short_input_behavior (S "") (by decide)
  exact ⟨h.1, h.2.1 (by decide), h.2.2 (by decide)⟩

theorem keyParagraphs_no_nl {text : PyStr} (hnl : '\n' ∉ text)
    (hlen : 10 < (pyStrip text).length) :
    keyParagraphs text = [pyStrip text] := by
  have h1 : splitNN text = [text] := splitNN_of_no_nl hnl
  have h2 : splitOnChar '\n' text = [text] := splitOnChar_of_not_mem hnl
  have hne : pyStrip text ≠ [] := by
    intro hcon
    rw [hcon] at hlen
    simp at hlen
  simp [keyParagraphs, h1, h2, hne, hlen]

theorem sents_sum_le (para : PyStr) :
    ((keySentences para).map List.length).sum ≤ para.length := by
  have hsub : List.Sublist (keySentences para) ((splitOnChar '.' para).map pyStrip) :=
    List.filter_sublist _
  have h1 : ((keySentences para).map List.length).sum ≤
      ((((splitOnChar '.' para).map pyStrip)).map List.length).sum :=
    List.Sublist.sum_le_sum (hsub.map List.length) (fun a _ => Nat.zero_le a)
  have h2 : ((((splitOnChar '.' para).map pyStrip)).map List.length).sum ≤
      (((splitOnChar '.' para)).map List.length).sum := by
    rw [List.map_map]
    exact List.sum_le_sum (fun i _ => pyStrip_length_le i)
  exact le_trans h1 (le_trans h2 (sum_length_splitOnChar '.' para))

/-- C9 (amended): for input consisting of 5 period-delimited sentences,
each longer than 20 characters, with no newline characters at all, the
rule-based key-summary tier returns exactly one paragraph summary via
the single-segment fallback path, combining the first sentence with the
longest of the remaining sentences. -/
theorem key_summary_five_sentences (text : PyStr) (hnl : '\n' ∉ text)
    (hlen : (keySentences (pyStrip text)).length = 5)
    (hall : ∀ s ∈ keySentences (pyStrip text), 20 < s.length) :
    ruleKeySummary text =
      [(keySentences (pyStrip text)).headD [] ++ S "." ++ S " " ++
        (pyMaxLen [] ((keySentences (pyStrip text)).drop 1) ++ S ".")] := by
  have h21 : ∀ s ∈ keySentences (pyStrip text), 21 ≤ s.length := fun s hs => hall s hs
  have hmul := mul_le_sum_length (keySentences (pyStrip text)) h21
  rw [hlen] at hmul
  have hsum := le_trans hmul (sents_sum_le (pyStrip text))
  have h10 : 10 < (pyStrip text).length := by omega
  have hKP : keyParagraphs text = [pyStrip text] := keyParagraphs_no_nl hnl h10
  cases hs : keySentences (pyStrip text) with
  | nil => rw [hs] at hlen; simp at hlen
  | cons s0 rest =>
  have hrest_len : rest.length = 4 := by rw [hs] at hlen; simpa using hlen
  have hrest_ne : rest ≠ [] := by intro hcon; rw [hcon] at hrest_len; simp at hrest_len
  have hM_mem : pyMaxLen [] rest ∈ rest := pyMaxLen_mem [] hrest_ne
  have hM_len : 20 < (pyMaxLen [] rest).length := by
    apply hall
    rw [hs]
    exact List.mem_cons_of_mem _ hM_mem
  have hM_ne : pyMaxLen [] rest ≠ [] := by
    intro hcon
    rw [hcon] at hM_len
    simp at hM_len
  have hdotlen : (S ".").length = 1 := by decide
  have hlng_ne : pyMaxLen [] rest ++ S "." ≠ [] := by
    intro hcon
    rw [List.append_eq_nil] at hcon
    exact hM_ne hcon.1
  have hlng_nedot : pyMaxLen [] rest ++ S "." ≠ S "." := by
    intro hcon
    have hlc := congrArg List.length hcon
    rw [List.length_append, hdotlen] at hlc
    omega
  have hs0_len : 20 < s0.length := by
    apply hall
    rw [hs]
    exact List.mem_cons_self _ _
  have hs0_ne : s0 ≠ [] := by
    intro hcon
    rw [hcon] at hs0_len
    simp at hs0_len
  have h30 : ¬ (pyStrip (pyStrip text)).length < 30 := by rw [pyStrip_idem]; omega
  have h2 : ¬ (keySentences (pyStrip text)).length ≤ 2 := by rw [hlen]; omega
  have hps : ruleParaSummary (pyStrip text) =
      s0 ++ S "." ++ (S " " ++ (pyMaxLen [] rest ++ S ".")) := by
    simp only [ruleParaSummary]
    rw [if_neg h30, if_neg h2, hs]
    simp only [List.headD_cons, List.drop_succ_cons, List.drop_zero]
    rw [if_pos hrest_ne, if_pos ⟨hlng_ne, hlng_nedot⟩]
  have hsum_head : (s0 ++ S "." ++ (S " " ++ (pyMaxLen [] rest ++ S "."))).head? = s0.head? := by
    cases s0 with
    | nil => exact absurd rfl hs0_ne
    | cons c t => simp
  have hs0_mem : s0 ∈ keySentences (pyStrip text) := by
    rw [hs]
    exact List.mem_cons_self _ _
  have hfrag : ∃ frag, s0 = pyStrip frag := by
    have h' := List.mem_filter.mp hs0_mem
    obtain ⟨frag, _, hfr⟩ := List.mem_map.mp h'.1
    exact ⟨frag, hfr.symm⟩
  obtain ⟨frag, hfr⟩ := hfrag
  have hgl : (s0 ++ S "." ++ (S " " ++ (pyMaxLen [] rest ++ S "."))).getLast? = some '.' := by
    have hdot : (S ".").getLast? = some '.' := by decide
    simp [List.getLast?_append, hdot]
  have hstrip : pyStrip (s0 ++ S "." ++ (S " " ++ (pyMaxLen [] rest ++ S "."))) =
      s0 ++ S "." ++ (S " " ++ (pyMaxLen [] rest ++ S ".")) := by
    cases hc : s0.head? with
    | none =>
      cases s0 with
      | nil => exact absurd rfl hs0_ne
      | cons c t => simp at hc
    | some c =>
      refine pyStrip_eq_self (c := c) (d := '.') ?_ ?_ hgl (by decide)
      · rw [hsum_head]
        exact hc
      · rw [hfr] at hc
        exact head?_pyStrip_not_sp hc
  have hne' : ruleParaSummary (pyStrip text) ≠ [] := by
    rw [hps]
    intro hcon
    rw [List.append_eq_nil, List.append_eq_nil] at hcon
    exact hs0_ne hcon.1.1
  have hlen5 : 5 < (pyStrip (ruleParaSummary (pyStrip text))).length := by
    rw [hps, hstrip]
    simp only [List.length_append]
    omega
  rw [ruleKeySummary, hKP]
  simp only [List.filterMap_cons, List.filterMap_nil]
  rw [if_pos ⟨hne', hlen5⟩]
  rw [hps, hstrip]
  simp [List.append_assoc]

/-- Input of the C9 witness: five period-delimited sentences, each
longer than 20 characters, with no newline characters. -/
def c9text : PyStr :=
  S "abcdefghij abcdefghij one. bcdefghijk abcdefghij two. cdefghijkl abcdefghij three. defghijklm abcdefghij four. efghijklmn abcdefghij five."

set_option maxRecDepth 20000 in
/-- Witness for the amended C9 at the concrete five-sentence input. -/
theorem key_summary_five_sentences_witness :
    ruleKeySummary c9text =
      [(keySentences (pyStrip c9text)).headD [] ++ S "." ++ S " " ++
        (pyMaxLen [] ((keySentences (pyStrip c9text)).drop 1) ++ S ".")] :=
  key_summary_five_sentences c9text (by decide) (by decide) (by decide)

/-- Input of the C9 counterexample: the same five sentences, one per
line, separated by single newlines — no blank-line break anywhere. -/
def c9nl : PyStr :=
  S "abcdefghij abcdefghij.\nbcdefghijk abcdefghij.\ncdefghijkl abcdefghij.\ndefghijklm abcdefghij.\nefghijklmn abcdefghij."

set_option maxRecDepth 20000 in
/-- Counterexample to C9 as stated: this input has 5 period-delimited
sentences, each longer than 20 characters, and contains no blank-line
break, yet the rule-based key-summary tier returns five paragraph
summaries, not one — the single-newline fallback splits it into five
paragraphs. -/
theorem key_summary_multiline_counterexample :
    pyIn (S "\n\n") c9nl = false ∧
    (keySentences (pyStrip c9nl)).length = 5 ∧
    (∀ s ∈ keySentences (pyStrip c9nl), 20 < s.length) ∧
    (ruleKeySummary c9nl).length = 5 := by decide
